import Mathlib

/-!
Verification of the inventory-and-sales system in `src/producto.py`.

The Python module stores products and sales in JSON-backed files and
exposes CRUD operations plus sale recording.  We embed the data model and
the operations shallowly:

* `Producto` models the `Producto` dataclass together with its
  `ProductoEspecial` subclass; following the spec's design note the
  base/derived pair is a tagged variant keyed on the presence of the
  `descuento` field (`descuento : Option ℚ`).
* Python floats are modelled as `ℚ`, Python ints as `ℤ`.
* Each manager operation reloads the file, mutates the in-memory list and
  rewrites the file; we model an operation as a function from the loaded
  list to the list that ends up stored, plus a flag recording whether
  `guardar_*` was called (i.e. whether the file was rewritten) and the
  console message printed.
* The interactive controller `Sistema.actualizar_producto` passes raw
  input *strings* for every field; to model this dynamically-typed call
  faithfully we also give an untyped variant (`ProductoD`, `PyVal`) of the
  update path, with Python truthiness.
-/

/-- The `Producto` dataclass (fields `id`, `nombre`, `precio`, `categoria`,
`stock`), with `ProductoEspecial` folded in as the presence of the
`descuento` field. -/
structure Producto where
  id : String
  nombre : String
  precio : ℚ
  categoria : String
  stock : ℤ
  descuento : Option ℚ
deriving DecidableEq, Repr

/-- `ProductoEspecial.calcular_precio_final`: `precio * (1 - descuento)`. -/
def calcular_precio_final (precio descuento : ℚ) : ℚ :=
  precio * (1 - descuento)

/-- Console messages printed by the managers. -/
inductive Msg where
  | ok
  | errDuplicado
  | errNoEncontrado
  | errStock
deriving DecidableEq, Repr

/-- Result of a `ProductoManager` mutating operation: the list that is
stored afterwards, whether `guardar_productos` was called (the file was
rewritten), and the message printed. -/
structure OpResult where
  productos : List Producto
  written : Bool
  msg : Msg
deriving DecidableEq, Repr

/-- `ProductoManager.registrar_producto`: refuse a duplicated id, otherwise
append the new product and rewrite the file. -/
def registrar_producto (nuevo : Producto) (productos : List Producto) : OpResult :=
  if productos.any (fun producto => producto.id = nuevo.id) then
    ⟨productos, false, .errDuplicado⟩
  else
    ⟨productos ++ [nuevo], true, .ok⟩

/-- Truthiness of an optional string argument (`if nombre:`). -/
def truthyStr : Option String → Bool
  | some s => s ≠ ""
  | none => false

/-- Truthiness of an optional float argument (`if precio:`). -/
def truthyRat : Option ℚ → Bool
  | some q => q ≠ 0
  | none => false

/-- The body of the `if producto.id == id:` branch of
`ProductoManager.actualizar_producto`: each truthy field is overwritten,
and `stock` is overwritten whenever it `is not None`. -/
def aplicarCampos (nombre : Option String) (precio : Option ℚ)
    (categoria : Option String) (stock : Option ℤ) (producto : Producto) : Producto :=
  let p1 := if truthyStr nombre then { producto with nombre := nombre.getD "" } else producto
  let p2 := if truthyRat precio then { p1 with precio := precio.getD 0 } else p1
  let p3 := if truthyStr categoria then { p2 with categoria := categoria.getD "" } else p2
  match stock with
  | some s => { p3 with stock := s }
  | none => p3

/-- `ProductoManager.actualizar_producto`: walk the loaded list, update the
first product whose id matches and rewrite the file; report an error when
no product matches. -/
def actualizar_producto (id : String) (nombre : Option String) (precio : Option ℚ)
    (categoria : Option String) (stock : Option ℤ) : List Producto → OpResult
  | [] => ⟨[], false, .errNoEncontrado⟩
  | producto :: resto =>
    if producto.id = id then
      ⟨aplicarCampos nombre precio categoria stock producto :: resto, true, .ok⟩
    else
      let r := actualizar_producto id nombre precio categoria stock resto
      ⟨producto :: r.productos, r.written, r.msg⟩

/-- `ProductoManager.eliminar_producto`: pop the first product whose id
matches and rewrite the file; report an error when none matches. -/
def eliminar_producto (id : String) : List Producto → OpResult
  | [] => ⟨[], false, .errNoEncontrado⟩
  | producto :: resto =>
    if producto.id = id then
      ⟨resto, true, .ok⟩
    else
      let r := eliminar_producto id resto
      ⟨producto :: r.productos, r.written, r.msg⟩

/-- The `Venta` dataclass. -/
structure Venta where
  producto_id : String
  cantidad : ℤ
  fecha : String
  total : ℚ
deriving DecidableEq, Repr

/-- Result of `VentaManager.registrar_venta` on the caller-supplied product
list: the (possibly mutated) list, the sale appended to the sales file (if
any), and the message printed.  Files are written exactly when a sale is
produced. -/
structure VentaResult where
  productos : List Producto
  venta : Option Venta
  msg : Msg
deriving DecidableEq, Repr

/-- `VentaManager.registrar_venta`: find the first product with the given
id; with sufficient stock, decrement the stock, build the sale with
`total = precio * cantidad`, otherwise report insufficient stock; report a
missing product when the loop falls through.  `fecha` stands for
`datetime.now().strftime(...)`. -/
def registrar_venta (producto_id : String) (cantidad : ℤ) (fecha : String) :
    List Producto → VentaResult
  | [] => ⟨[], none, .errNoEncontrado⟩
  | producto :: resto =>
    if producto.id = producto_id then
      if cantidad ≤ producto.stock then
        ⟨{ producto with stock := producto.stock - cantidad } :: resto,
         some ⟨producto_id, cantidad, fecha, producto.precio * cantidad⟩, .ok⟩
      else
        ⟨producto :: resto, none, .errStock⟩
    else
      let r := registrar_venta producto_id cantidad fecha resto
      ⟨producto :: r.productos, r.venta, r.msg⟩

/-- Joint state of the two files after `Sistema.registrar_venta`, with a
flag per file recording whether it was rewritten. -/
structure SistemaVentaResult where
  productosFile : List Producto
  ventasFile : List Venta
  productosWritten : Bool
  ventasWritten : Bool
  msg : Msg
deriving DecidableEq, Repr

/-- `Sistema.registrar_venta`: load the products, run
`VentaManager.registrar_venta`; on success the sale is appended to the
reloaded sales collection and both files are rewritten, on error neither
file is touched. -/
def sistema_registrar_venta (producto_id : String) (cantidad : ℤ) (fecha : String)
    (productosFile : List Producto) (ventasFile : List Venta) : SistemaVentaResult :=
  let r := registrar_venta producto_id cantidad fecha productosFile
  match r.venta with
  | some v => ⟨r.productos, ventasFile ++ [v], true, true, r.msg⟩
  | none => ⟨productosFile, ventasFile, false, false, r.msg⟩

/-! ### Serialization: `json.dump` / `json.load` of the two files

A JSON value appearing in a record is a string, a float or an int; a
record is an association list of keys to values (a Python dict dumped and
reloaded in insertion order).  `guardar_*` writes `obj.__dict__` for each
entity; `cargar_*` rebuilds an entity with `Cls(**record)`, which succeeds
exactly when the keys are exactly the dataclass's fields (and, for the
typed embedding, the values have the dataclass's field types). -/

/-- A JSON scalar as it appears in the two files. -/
inductive JVal where
  | s (v : String)
  | q (v : ℚ)
  | z (v : ℤ)
deriving DecidableEq, Repr

/-- A JSON object: keys in insertion order. -/
abbrev JObj := List (String × JVal)

/-- `producto.__dict__` as dumped by `guardar_productos`: the five base
fields in dataclass order, plus `descuento` for a `ProductoEspecial`. -/
def Producto.toDict (p : Producto) : JObj :=
  [("id", .s p.id), ("nombre", .s p.nombre), ("precio", .q p.precio),
   ("categoria", .s p.categoria), ("stock", .z p.stock)] ++
  (match p.descuento with
   | some d => [("descuento", .q d)]
   | none => [])

/-- `Producto(**producto) if 'descuento' not in producto else
ProductoEspecial(**producto)`: rebuild an entity from a loaded record;
`none` models the uncaught `TypeError` raised when the keyword arguments
do not match the dataclass. -/
def Producto.ofDict (o : JObj) : Option Producto :=
  match o.lookup "id", o.lookup "nombre", o.lookup "precio",
        o.lookup "categoria", o.lookup "stock", o.lookup "descuento" with
  | some (.s id), some (.s nombre), some (.q precio),
    some (.s categoria), some (.z stock), none =>
    if o.length = 5 then some ⟨id, nombre, precio, categoria, stock, none⟩ else none
  | some (.s id), some (.s nombre), some (.q precio),
    some (.s categoria), some (.z stock), some (.q d) =>
    if o.length = 6 then some ⟨id, nombre, precio, categoria, stock, some d⟩ else none
  | _, _, _, _, _, _ => none

/-- `venta.__dict__` as dumped by `guardar_ventas`. -/
def Venta.toDict (v : Venta) : JObj :=
  [("producto_id", .s v.producto_id), ("cantidad", .z v.cantidad),
   ("fecha", .s v.fecha), ("total", .q v.total)]

/-- `Venta(**venta)`: rebuild a sale from a loaded record. -/
def Venta.ofDict (o : JObj) : Option Venta :=
  match o.lookup "producto_id", o.lookup "cantidad",
        o.lookup "fecha", o.lookup "total" with
  | some (.s pid), some (.z cantidad), some (.s fecha), some (.q total) =>
    if o.length = 4 then some ⟨pid, cantidad, fecha, total⟩ else none
  | _, _, _, _ => none

/-- State of one backing file: absent, JSON-undecodable, or a decoded list
of records. -/
inductive FileState (α : Type) where
  | missing
  | malformed
  | good (content : α)
deriving DecidableEq, Repr

/-- Outcome of a `cargar_*` call: `.error ()` models an uncaught
exception, and `errPrinted` records whether the "Error al leer el
archivo" message was printed. -/
structure LoadResult (β : Type) where
  result : Except Unit β
  errPrinted : Bool
deriving Repr

/-- The list comprehension of the two `cargar_*` methods: rebuild the
records left to right, aborting on the first record whose keyword
arguments do not match. -/
def cargaTodos {α : Type} (f : JObj → Option α) : List JObj → Option (List α)
  | [] => some []
  | o :: resto =>
    match f o, cargaTodos f resto with
    | some a, some l => some (a :: l)
    | _, _ => none

/-- `ProductoManager.cargar_productos`: missing file gives `[]`;
`json.JSONDecodeError` is caught, reported and gives `[]`; a decoded list
is rebuilt record by record. -/
def cargar_productos : FileState (List JObj) → LoadResult (List Producto)
  | .missing => ⟨.ok [], false⟩
  | .malformed => ⟨.ok [], true⟩
  | .good objs =>
    match cargaTodos Producto.ofDict objs with
    | some productos => ⟨.ok productos, false⟩
    | none => ⟨.error (), false⟩

/-- `ProductoManager.guardar_productos`: dump every `__dict__`. -/
def guardar_productos (productos : List Producto) : FileState (List JObj) :=
  .good (productos.map Producto.toDict)

/-- `VentaManager.cargar_ventas`. -/
def cargar_ventas : FileState (List JObj) → LoadResult (List Venta)
  | .missing => ⟨.ok [], false⟩
  | .malformed => ⟨.ok [], true⟩
  | .good objs =>
    match cargaTodos Venta.ofDict objs with
    | some ventas => ⟨.ok ventas, false⟩
    | none => ⟨.error (), false⟩

/-- `VentaManager.guardar_ventas`. -/
def guardar_ventas (ventas : List Venta) : FileState (List JObj) :=
  .good (ventas.map Venta.toDict)

/-! ### The interactive update path, dynamically typed

`Sistema.actualizar_producto` reads five raw strings and passes them
unchanged to `ProductoManager.actualizar_producto`, so inside the manager
every field argument is a *string* — never `None`.  We model Python values
and truthiness explicitly for this path. -/

/-- A dynamically-typed Python value as it can reach a product field. -/
inductive PyVal where
  | vs (v : String)
  | vq (v : ℚ)
  | vz (v : ℤ)
  | pynone
deriving DecidableEq, Repr

/-- Python truthiness of a `PyVal` (`if nombre:`). -/
def PyVal.truthy : PyVal → Bool
  | .vs v => v ≠ ""
  | .vq v => v ≠ 0
  | .vz v => v ≠ 0
  | .pynone => false

/-- A product whose mutable fields hold dynamically-typed values, as
Python's attribute assignment permits. -/
structure ProductoD where
  id : String
  nombre : PyVal
  precio : PyVal
  categoria : PyVal
  stock : PyVal
deriving DecidableEq, Repr

/-- Result of the dynamically-typed update. -/
structure OpResultD where
  productos : List ProductoD
  written : Bool
  msg : Msg
deriving DecidableEq, Repr

/-- The field assignments of `ProductoManager.actualizar_producto` on a
matching product, with the arguments as Python values: truthy `nombre`,
`precio`, `categoria` are assigned; `stock` is assigned whenever it
`is not None`. -/
def aplicarCamposD (nombre precio categoria stock : PyVal) (producto : ProductoD) : ProductoD :=
  let p1 := if nombre.truthy then { producto with nombre := nombre } else producto
  let p2 := if precio.truthy then { p1 with precio := precio } else p1
  let p3 := if categoria.truthy then { p2 with categoria := categoria } else p2
  if stock ≠ .pynone then { p3 with stock := stock } else p3

/-- `ProductoManager.actualizar_producto` over dynamically-typed
arguments. -/
def actualizar_productoD (id : String) (nombre precio categoria stock : PyVal) :
    List ProductoD → OpResultD
  | [] => ⟨[], false, .errNoEncontrado⟩
  | producto :: resto =>
    if producto.id = id then
      ⟨aplicarCamposD nombre precio categoria stock producto :: resto, true, .ok⟩
    else
      let r := actualizar_productoD id nombre precio categoria stock resto
      ⟨producto :: r.productos, r.written, r.msg⟩

/-- `Sistema.actualizar_producto`: the controller collects five raw input
strings and passes them directly to the manager. -/
def sistema_actualizar_producto (id nombre precio categoria stock : String)
    (productos : List ProductoD) : OpResultD :=
  actualizar_productoD id (.vs nombre) (.vs precio) (.vs categoria) (.vs stock) productos

/-! ### Derived notions used in the statements -/

/-- The spec's stock invariant: every stored stock is non-negative. -/
def stockNoNegativo (productos : List Producto) : Prop :=
  ∀ p ∈ productos, 0 ≤ p.stock

instance (productos : List Producto) : Decidable (stockNoNegativo productos) :=
  List.decidableBAll _ productos

/-- Decrement the stock of every product carrying the given id (there is
exactly one when ids are unique), leave every other product untouched: the
intended effect of a valid sale. -/
def conVentaAplicada (producto_id : String) (cantidad : ℤ) : List Producto → List Producto
  | [] => []
  | q :: resto =>
    (if q.id = producto_id then { q with stock := q.stock - cantidad } else q) ::
      conVentaAplicada producto_id cantidad resto

/-! ### Helper lemmas -/

theorem aplicarCampos_id (nombre : Option String) (precio : Option ℚ)
    (categoria : Option String) (stock : Option ℤ) (p : Producto) :
    (aplicarCampos nombre precio categoria stock p).id = p.id := by
  cases stock <;> simp only [aplicarCampos] <;> split <;> split <;> split <;> rfl

theorem aplicarCampos_stock (nombre : Option String) (precio : Option ℚ)
    (categoria : Option String) (stock : Option ℤ) (p : Producto) :
    (aplicarCampos nombre precio categoria stock p).stock = stock.getD p.stock := by
  cases stock <;> simp only [aplicarCampos, Option.getD] <;> split <;> split <;> split <;> rfl

theorem actualizar_not_found (id : String) (nombre : Option String) (precio : Option ℚ)
    (categoria : Option String) (stock : Option ℤ) (productos : List Producto)
    (h : ∀ p ∈ productos, p.id ≠ id) :
    actualizar_producto id nombre precio categoria stock productos =
      ⟨productos, false, .errNoEncontrado⟩ := by
  induction productos with
  | nil => rfl
  | cons p resto ih =>
    have hp : ¬ p.id = id := h p (by simp)
    have ihr := ih fun q hq => h q (by simp [hq])
    simp [actualizar_producto, hp, ihr]

theorem actualizar_map_id (id : String) (nombre : Option String) (precio : Option ℚ)
    (categoria : Option String) (stock : Option ℤ) (productos : List Producto) :
    (actualizar_producto id nombre precio categoria stock productos).productos.map Producto.id =
      productos.map Producto.id := by
  induction productos with
  | nil => rfl
  | cons p resto ih =>
    by_cases hp : p.id = id <;> simp [actualizar_producto, hp, aplicarCampos_id, ih]

theorem actualizar_stock_nonneg (id : String) (nombre : Option String) (precio : Option ℚ)
    (categoria : Option String) (stock : Option ℤ) (productos : List Producto)
    (h : stockNoNegativo productos) (hst : ∀ s, stock = some s → 0 ≤ s) :
    stockNoNegativo (actualizar_producto id nombre precio categoria stock productos).productos := by
  induction productos with
  | nil => intro q hq; simp [actualizar_producto] at hq
  | cons p resto ih =>
    have hresto : stockNoNegativo resto := fun q hq => h q (by simp [hq])
    intro q hq
    by_cases hp : p.id = id
    · simp [actualizar_producto, hp] at hq
      rcases hq with hq | hq
      · subst hq
        rw [aplicarCampos_stock]
        cases hcase : stock with
        | none => simpa using h p (by simp)
        | some s => simpa using hst s hcase
      · exact hresto q hq
    · simp [actualizar_producto, hp] at hq
      rcases hq with hq | hq
      · exact h q (by simp [hq])
      · exact ih hresto q hq

theorem eliminar_not_found (id : String) (productos : List Producto)
    (h : ∀ p ∈ productos, p.id ≠ id) :
    eliminar_producto id productos = ⟨productos, false, .errNoEncontrado⟩ := by
  induction productos with
  | nil => rfl
  | cons p resto ih =>
    have hp : ¬ p.id = id := h p (by simp)
    have ihr := ih fun q hq => h q (by simp [hq])
    simp [eliminar_producto, hp, ihr]

theorem eliminar_sublist (id : String) (productos : List Producto) :
    (eliminar_producto id productos).productos.Sublist productos := by
  induction productos with
  | nil => simp [eliminar_producto]
  | cons p resto ih =>
    by_cases hp : p.id = id
    · rw [show eliminar_producto id (p :: resto) = ⟨resto, true, .ok⟩ by simp [eliminar_producto, hp]]
      exact List.sublist_cons_self p resto
    · simpa [eliminar_producto, hp] using ih.cons₂ p

theorem registrar_venta_not_found (producto_id : String) (cantidad : ℤ) (fecha : String)
    (productos : List Producto) (h : ∀ p ∈ productos, p.id ≠ producto_id) :
    registrar_venta producto_id cantidad fecha productos =
      ⟨productos, none, .errNoEncontrado⟩ := by
  induction productos with
  | nil => rfl
  | cons p resto ih =>
    have hp : ¬ p.id = producto_id := h p (by simp)
    have ihr := ih fun q hq => h q (by simp [hq])
    simp [registrar_venta, hp, ihr]

theorem registrar_venta_first_ok (producto_id : String) (cantidad : ℤ) (fecha : String)
    (pre post : List Producto) (p : Producto)
    (hpre : ∀ q ∈ pre, q.id ≠ producto_id) (hp : p.id = producto_id)
    (hstock : cantidad ≤ p.stock) :
    registrar_venta producto_id cantidad fecha (pre ++ p :: post) =
      ⟨pre ++ { p with stock := p.stock - cantidad } :: post,
       some ⟨producto_id, cantidad, fecha, p.precio * cantidad⟩, .ok⟩ := by
  induction pre with
  | nil => simp [registrar_venta, hp, hstock]
  | cons q resto ih =>
    have hq : ¬ q.id = producto_id := hpre q (by simp)
    have ihr := ih fun r hr => hpre r (by simp [hr])
    simp [registrar_venta, hq, ihr]

theorem registrar_venta_first_errStock (producto_id : String) (cantidad : ℤ) (fecha : String)
    (pre post : List Producto) (p : Producto)
    (hpre : ∀ q ∈ pre, q.id ≠ producto_id) (hp : p.id = producto_id)
    (hstock : p.stock < cantidad) :
    registrar_venta producto_id cantidad fecha (pre ++ p :: post) =
      ⟨pre ++ p :: post, none, .errStock⟩ := by
  induction pre with
  | nil => simp [registrar_venta, hp, not_le.mpr hstock]
  | cons q resto ih =>
    have hq : ¬ q.id = producto_id := hpre q (by simp)
    have ihr := ih fun r hr => hpre r (by simp [hr])
    simp [registrar_venta, hq, ihr]

theorem registrar_venta_map_id (producto_id : String) (cantidad : ℤ) (fecha : String)
    (productos : List Producto) :
    (registrar_venta producto_id cantidad fecha productos).productos.map Producto.id =
      productos.map Producto.id := by
  induction productos with
  | nil => rfl
  | cons p resto ih =>
    by_cases hp : p.id = producto_id
    · by_cases hs : cantidad ≤ p.stock <;> simp [registrar_venta, hp, hs]
    · simp [registrar_venta, hp, ih]

theorem registrar_venta_stock_nonneg (producto_id : String) (cantidad : ℤ) (fecha : String)
    (productos : List Producto) (h : stockNoNegativo productos) :
    stockNoNegativo (registrar_venta producto_id cantidad fecha productos).productos := by
  induction productos with
  | nil => intro q hq; simp [registrar_venta] at hq
  | cons p resto ih =>
    have hresto : stockNoNegativo resto := fun q hq => h q (by simp [hq])
    intro q hq
    by_cases hp : p.id = producto_id
    · by_cases hs : cantidad ≤ p.stock
      · simp [registrar_venta, hp, hs] at hq
        rcases hq with hq | hq
        · subst hq; simpa using sub_nonneg.mpr hs
        · exact hresto q hq
      · simp [registrar_venta, hp, hs] at hq
        rcases hq with hq | hq
        · exact h q (by simp [hq])
        · exact hresto q hq
    · simp [registrar_venta, hp] at hq
      rcases hq with hq | hq
      · exact h q (by simp [hq])
      · exact ih hresto q hq

/-- If the ids are pairwise distinct and `p` is a member with id `i`, the
list splits as `pre ++ p :: post` with no occurrence of `i` in `pre` or
`post`. -/
theorem mem_nodup_split (productos : List Producto) (p : Producto)
    (hnodup : (productos.map Producto.id).Nodup) (hmem : p ∈ productos) :
    ∃ pre post, productos = pre ++ p :: post ∧
      (∀ q ∈ pre, q.id ≠ p.id) ∧ (∀ q ∈ post, q.id ≠ p.id) := by
  obtain ⟨pre, post, rfl⟩ := List.append_of_mem hmem
  refine ⟨pre, post, rfl, ?_, ?_⟩
  · intro q hq hid
    rw [List.map_append, List.nodup_append] at hnodup
    exact hnodup.2.2 (List.mem_map_of_mem Producto.id hq) (by simp [hid])
  · intro q hq hid
    rw [List.map_append, List.nodup_append] at hnodup
    have := hnodup.2.1
    rw [List.map_cons, List.nodup_cons] at this
    exact this.1 (by rw [← hid]; exact List.mem_map_of_mem Producto.id hq)

theorem conVentaAplicada_not_mem (producto_id : String) (cantidad : ℤ)
    (productos : List Producto) (h : ∀ q ∈ productos, q.id ≠ producto_id) :
    conVentaAplicada producto_id cantidad productos = productos := by
  induction productos with
  | nil => rfl
  | cons q resto ih =>
    have hq : ¬ q.id = producto_id := h q (by simp)
    have ihr := ih fun r hr => h r (by simp [hr])
    simp [conVentaAplicada, hq, ihr]

theorem conVentaAplicada_split (producto_id : String) (cantidad : ℤ)
    (pre post : List Producto) (p : Producto)
    (hpre : ∀ q ∈ pre, q.id ≠ producto_id) (hpost : ∀ q ∈ post, q.id ≠ producto_id)
    (hp : p.id = producto_id) :
    conVentaAplicada producto_id cantidad (pre ++ p :: post) =
      pre ++ { p with stock := p.stock - cantidad } :: post := by
  induction pre with
  | nil => simp [conVentaAplicada, hp, conVentaAplicada_not_mem producto_id cantidad post hpost]
  | cons q resto ih =>
    have hq : ¬ q.id = producto_id := hpre q (by simp)
    have ihr := ih fun r hr => hpre r (by simp [hr])
    simp [conVentaAplicada, hq, ihr]

theorem eliminar_first (id : String) (pre post : List Producto) (p : Producto)
    (hpre : ∀ q ∈ pre, q.id ≠ id) (hp : p.id = id) :
    eliminar_producto id (pre ++ p :: post) = ⟨pre ++ post, true, .ok⟩ := by
  induction pre with
  | nil => simp [eliminar_producto, hp]
  | cons q resto ih =>
    have hq : ¬ q.id = id := hpre q (by simp)
    have ihr := ih fun r hr => hpre r (by simp [hr])
    simp [eliminar_producto, hq, ihr]

theorem ofDict_toDict_producto (p : Producto) : Producto.ofDict p.toDict = some p := by
  rcases p with ⟨i, n, pr, c, s, d⟩
  cases d <;> rfl

theorem ofDict_toDict_venta (v : Venta) : Venta.ofDict v.toDict = some v := by
  rcases v with ⟨pid, c, f, t⟩
  rfl

theorem cargaTodos_toDict {α : Type} (f : JObj → Option α) (toDict : α → JObj)
    (hf : ∀ a, f (toDict a) = some a) (l : List α) :
    cargaTodos f (l.map toDict) = some l := by
  induction l with
  | nil => rfl
  | cons a resto ih => simp [cargaTodos, hf a, ih]

/-! ### Claims -/

/-- C1: for a stored product list (ids unique, per the data-model
invariant) containing a product with the given id and stock at least the
requested quantity, recording the sale decrements exactly that product's
stock by the quantity, leaves every other product unchanged, and appends
exactly one sale whose total is the unit price times the quantity; both
files are rewritten accordingly. -/
theorem C1_venta_valida (producto_id : String) (cantidad : ℤ) (fecha : String)
    (productosFile : List Producto) (ventasFile : List Venta) (p : Producto)
    (hnodup : (productosFile.map Producto.id).Nodup)
    (hmem : p ∈ productosFile) (hid : p.id = producto_id)
    (hstock : cantidad ≤ p.stock) :
    sistema_registrar_venta producto_id cantidad fecha productosFile ventasFile =
      ⟨conVentaAplicada producto_id cantidad productosFile,
       ventasFile ++ [⟨producto_id, cantidad, fecha, p.precio * cantidad⟩],
       true, true, .ok⟩ := by
  obtain ⟨pre, post, rfl, hpre, hpost⟩ := mem_nodup_split productosFile p hnodup hmem
  have hpre' : ∀ q ∈ pre, q.id ≠ producto_id := fun q hq => hid ▸ hpre q hq
  have hpost' : ∀ q ∈ post, q.id ≠ producto_id := fun q hq => hid ▸ hpost q hq
  have hv := registrar_venta_first_ok producto_id cantidad fecha pre post p hpre' hid hstock
  rw [conVentaAplicada_split producto_id cantidad pre post p hpre' hpost' hid]
  simp [sistema_registrar_venta, hv]

/-- Witness for C1 at the spec's example: product `P1`, price `10.0`,
stock `5`, sale of quantity `3` gives stock `2` and total `30.0`. -/
theorem C1_venta_valida_testigo :
    sistema_registrar_venta "P1" 3 "2024-01-01 10:00:00"
        [⟨"P1", "Cuaderno", 10, "Utiles", 5, Option.none⟩] [] =
      ⟨[⟨"P1", "Cuaderno", 10, "Utiles", 2, Option.none⟩],
       [⟨"P1", 3, "2024-01-01 10:00:00", 30⟩], true, true, .ok⟩ := by
  have h := C1_venta_valida "P1" 3 "2024-01-01 10:00:00"
      [⟨"P1", "Cuaderno", 10, "Utiles", 5, Option.none⟩] []
      ⟨"P1", "Cuaderno", 10, "Utiles", 5, Option.none⟩ (by decide) (by simp) rfl (by decide)
  rw [h]
  norm_num [conVentaAplicada]

/-- C2: a sale naming an absent product, or asking for more than the stock
of the (unique) product with the given id, reports an error and rewrites
neither the products file nor the sales file. -/
theorem C2_venta_invalida (producto_id : String) (cantidad : ℤ) (fecha : String)
    (productosFile : List Producto) (ventasFile : List Venta)
    (h : (∀ p ∈ productosFile, p.id ≠ producto_id) ∨
         ((productosFile.map Producto.id).Nodup ∧
          ∃ p ∈ productosFile, p.id = producto_id ∧ p.stock < cantidad)) :
    (sistema_registrar_venta producto_id cantidad fecha productosFile ventasFile).productosFile
        = productosFile ∧
    (sistema_registrar_venta producto_id cantidad fecha productosFile ventasFile).ventasFile
        = ventasFile ∧
    (sistema_registrar_venta producto_id cantidad fecha productosFile ventasFile).productosWritten
        = false ∧
    (sistema_registrar_venta producto_id cantidad fecha productosFile ventasFile).ventasWritten
        = false ∧
    ((sistema_registrar_venta producto_id cantidad fecha productosFile ventasFile).msg
        = .errNoEncontrado ∨
     (sistema_registrar_venta producto_id cantidad fecha productosFile ventasFile).msg
        = .errStock) := by
  rcases h with h | ⟨hnodup, p, hmem, hid, hstock⟩
  · have hv := registrar_venta_not_found producto_id cantidad fecha productosFile h
    simp [sistema_registrar_venta, hv]
  · obtain ⟨pre, post, rfl, hpre, _⟩ := mem_nodup_split _ p hnodup hmem
    have hpre' : ∀ q ∈ pre, q.id ≠ producto_id := fun q hq => hid ▸ hpre q hq
    have hv := registrar_venta_first_errStock producto_id cantidad fecha pre post p hpre' hid hstock
    simp [sistema_registrar_venta, hv]

/-- Witness for C2: quantity 9 against stock 5 leaves both files untouched
and reports insufficient stock. -/
theorem C2_venta_invalida_testigo :
    (sistema_registrar_venta "P1" 9 "2024-01-01 10:00:00"
        [⟨"P1", "Cuaderno", 10, "Utiles", 5, Option.none⟩] []).productosFile
        = [⟨"P1", "Cuaderno", 10, "Utiles", 5, Option.none⟩] ∧
    (sistema_registrar_venta "P1" 9 "2024-01-01 10:00:00"
        [⟨"P1", "Cuaderno", 10, "Utiles", 5, Option.none⟩] []).ventasFile = [] ∧
    (sistema_registrar_venta "P1" 9 "2024-01-01 10:00:00"
        [⟨"P1", "Cuaderno", 10, "Utiles", 5, Option.none⟩] []).productosWritten = false ∧
    (sistema_registrar_venta "P1" 9 "2024-01-01 10:00:00"
        [⟨"P1", "Cuaderno", 10, "Utiles", 5, Option.none⟩] []).ventasWritten = false ∧
    ((sistema_registrar_venta "P1" 9 "2024-01-01 10:00:00"
        [⟨"P1", "Cuaderno", 10, "Utiles", 5, Option.none⟩] []).msg = .errNoEncontrado ∨
     (sistema_registrar_venta "P1" 9 "2024-01-01 10:00:00"
        [⟨"P1", "Cuaderno", 10, "Utiles", 5, Option.none⟩] []).msg = .errStock) :=
  C2_venta_invalida "P1" 9 "2024-01-01 10:00:00"
    [⟨"P1", "Cuaderno", 10, "Utiles", 5, Option.none⟩] []
    (Or.inr ⟨by decide, ⟨"P1", "Cuaderno", 10, "Utiles", 5, Option.none⟩, by simp, rfl, by decide⟩)

/-- C3 fails as stated: `registrar_producto` performs no validation, so
registering a product whose stock is already negative is accepted and
stored, breaking the non-negativity invariant from a state (the empty
collection) in which it holds. -/
theorem C3_contraejemplo :
    stockNoNegativo [] ∧
    ¬ stockNoNegativo
        (registrar_producto ⟨"P1", "Laptop", 10, "Tecnologia", -1, Option.none⟩ []).productos := by
  decide

/-- C3 (amended): deleting a product and recording a sale always preserve
stock non-negativity; registering a product and updating one preserve it
provided the stock value supplied to them is non-negative — the code never
validates those inputs. -/
theorem C3_stock_no_negativo (productosFile : List Producto) (nuevo : Producto)
    (uid : String) (nombre : Option String) (precio : Option ℚ) (categoria : Option String)
    (stock : Option ℤ) (did producto_id : String) (cantidad : ℤ) (fecha : String)
    (ventasFile : List Venta)
    (hpf : stockNoNegativo productosFile) (hnuevo : 0 ≤ nuevo.stock)
    (hstock : ∀ s, stock = some s → 0 ≤ s) :
    stockNoNegativo (registrar_producto nuevo productosFile).productos ∧
    stockNoNegativo (actualizar_producto uid nombre precio categoria stock productosFile).productos ∧
    stockNoNegativo (eliminar_producto did productosFile).productos ∧
    stockNoNegativo
      (sistema_registrar_venta producto_id cantidad fecha productosFile ventasFile).productosFile := by
  refine ⟨?_, actualizar_stock_nonneg uid nombre precio categoria stock productosFile hpf hstock,
    ?_, ?_⟩
  · unfold registrar_producto
    split
    · exact hpf
    · intro q hq
      simp only [List.mem_append, List.mem_singleton] at hq
      rcases hq with hq | hq
      · exact hpf q hq
      · subst hq; exact hnuevo
  · intro q hq
    exact hpf q ((eliminar_sublist did productosFile).subset hq)
  · simp only [sistema_registrar_venta]
    split
    · intro q hq
      exact registrar_venta_stock_nonneg producto_id cantidad fecha productosFile hpf q hq
    · exact hpf

/-- Witness for the amended C3 on a one-product collection, with a
register of stock 3, an update supplying stock 4, a delete and a sale of
quantity 2. -/
theorem C3_stock_no_negativo_testigo :
    stockNoNegativo (registrar_producto ⟨"P2", "Mouse", 5, "Tecnologia", 3, Option.none⟩
        [⟨"P1", "Laptop", 10, "Tecnologia", 5, Option.none⟩]).productos ∧
    stockNoNegativo (actualizar_producto "P1" (some "Portatil") Option.none Option.none (some 4)
        [⟨"P1", "Laptop", 10, "Tecnologia", 5, Option.none⟩]).productos ∧
    stockNoNegativo (eliminar_producto "P1"
        [⟨"P1", "Laptop", 10, "Tecnologia", 5, Option.none⟩]).productos ∧
    stockNoNegativo (sistema_registrar_venta "P1" 2 "2024-01-01 10:00:00"
        [⟨"P1", "Laptop", 10, "Tecnologia", 5, Option.none⟩] []).productosFile :=
  C3_stock_no_negativo [⟨"P1", "Laptop", 10, "Tecnologia", 5, Option.none⟩]
    ⟨"P2", "Mouse", 5, "Tecnologia", 3, Option.none⟩ "P1" (some "Portatil") Option.none
    Option.none (some 4) "P1" "P1" 2 "2024-01-01 10:00:00" []
    (by decide) (by decide) (fun s hs => by injection hs with h; omega)

/-- C4: what the interactive update actually does when the user asks to
update `P1` and presses Enter ("keep") for every field, starting from a
stored product with integer stock `7`: the empty input string is not
`None`, so `if stock is not None` fires and the stock is overwritten with
the empty string instead of being kept; the file is rewritten. -/
theorem C4_stock_sobrescrito :
    sistema_actualizar_producto "P1" "" "" "" ""
        [⟨"P1", .vs "Laptop", .vq 10, .vs "Tecnologia", .vz 7⟩] =
      ⟨[⟨"P1", .vs "Laptop", .vq 10, .vs "Tecnologia", .vs ""⟩], true, .ok⟩ := by
  decide

/-- C5: registering a product whose id is already stored reports the
duplicate and neither changes the stored collection nor rewrites the
file. -/
theorem C5_registro_duplicado (nuevo : Producto) (productos : List Producto)
    (h : ∃ p ∈ productos, p.id = nuevo.id) :
    registrar_producto nuevo productos = ⟨productos, false, .errDuplicado⟩ := by
  obtain ⟨p, hmem, hid⟩ := h
  have hany : productos.any (fun producto => producto.id = nuevo.id) = true := by
    simp only [List.any_eq_true, decide_eq_true_eq]
    exact ⟨p, hmem, hid⟩
  simp [registrar_producto, hany]

/-- Witness for C5: registering a second `P1` is refused. -/
theorem C5_registro_duplicado_testigo :
    registrar_producto ⟨"P1", "Tablet", 8, "Tecnologia", 2, Option.none⟩
        [⟨"P1", "Laptop", 10, "Tecnologia", 5, Option.none⟩] =
      ⟨[⟨"P1", "Laptop", 10, "Tecnologia", 5, Option.none⟩], false, .errDuplicado⟩ :=
  C5_registro_duplicado ⟨"P1", "Tablet", 8, "Tecnologia", 2, Option.none⟩
    [⟨"P1", "Laptop", 10, "Tecnologia", 5, Option.none⟩]
    ⟨⟨"P1", "Laptop", 10, "Tecnologia", 5, Option.none⟩, by simp, rfl⟩

/-- C6: updating or deleting an id absent from the stored collection
reports the error and leaves the collection unchanged, without rewriting
the file. -/
theorem C6_objetivo_inexistente (uid : String) (nombre : Option String) (precio : Option ℚ)
    (categoria : Option String) (stock : Option ℤ) (productos : List Producto)
    (h : ∀ p ∈ productos, p.id ≠ uid) :
    actualizar_producto uid nombre precio categoria stock productos =
      ⟨productos, false, .errNoEncontrado⟩ ∧
    eliminar_producto uid productos = ⟨productos, false, .errNoEncontrado⟩ :=
  ⟨actualizar_not_found uid nombre precio categoria stock productos h,
   eliminar_not_found uid productos h⟩

/-- Witness for C6: updating and deleting the absent id `P9`. -/
theorem C6_objetivo_inexistente_testigo :
    actualizar_producto "P9" (some "X") Option.none Option.none Option.none
        [⟨"P1", "Laptop", 10, "Tecnologia", 5, Option.none⟩] =
      ⟨[⟨"P1", "Laptop", 10, "Tecnologia", 5, Option.none⟩], false, .errNoEncontrado⟩ ∧
    eliminar_producto "P9" [⟨"P1", "Laptop", 10, "Tecnologia", 5, Option.none⟩] =
      ⟨[⟨"P1", "Laptop", 10, "Tecnologia", 5, Option.none⟩], false, .errNoEncontrado⟩ :=
  C6_objetivo_inexistente "P9" (some "X") Option.none Option.none Option.none
    [⟨"P1", "Laptop", 10, "Tecnologia", 5, Option.none⟩] (by decide)

/-- C7: saving any collection of products (plain or discounted, the
variant being the presence of the `descuento` field) or sales and loading
it back yields an equal collection — same ids, same field values, same
variant per record — with no error reported. -/
theorem C7_ida_y_vuelta (productos : List Producto) (ventas : List Venta) :
    cargar_productos (guardar_productos productos) = ⟨.ok productos, false⟩ ∧
    cargar_ventas (guardar_ventas ventas) = ⟨.ok ventas, false⟩ := by
  constructor
  · simp [cargar_productos, guardar_productos,
      cargaTodos_toDict Producto.ofDict Producto.toDict ofDict_toDict_producto productos]
  · simp [cargar_ventas, guardar_ventas,
      cargaTodos_toDict Venta.ofDict Venta.toDict ofDict_toDict_venta ventas]

/-- C8: starting from stored ids pairwise distinct, registering, updating,
deleting a product and recording a sale each leave the stored ids pairwise
distinct. -/
theorem C8_ids_unicos (productosFile : List Producto) (nuevo : Producto) (uid : String)
    (nombre : Option String) (precio : Option ℚ) (categoria : Option String) (stock : Option ℤ)
    (did producto_id : String) (cantidad : ℤ) (fecha : String) (ventasFile : List Venta)
    (hnodup : (productosFile.map Producto.id).Nodup) :
    ((registrar_producto nuevo productosFile).productos.map Producto.id).Nodup ∧
    ((actualizar_producto uid nombre precio categoria stock productosFile).productos.map
        Producto.id).Nodup ∧
    ((eliminar_producto did productosFile).productos.map Producto.id).Nodup ∧
    ((sistema_registrar_venta producto_id cantidad fecha productosFile ventasFile).productosFile.map
        Producto.id).Nodup := by
  refine ⟨?_, ?_, ?_, ?_⟩
  · unfold registrar_producto
    split
    · exact hnodup
    · next hany =>
      simp only [List.any_eq_true, decide_eq_true_eq] at hany
      show ((productosFile ++ [nuevo]).map Producto.id).Nodup
      rw [List.map_append, List.nodup_append]
      refine ⟨hnodup, List.nodup_singleton _, ?_⟩
      intro a ha hb
      simp only [List.map_cons, List.map_nil, List.mem_singleton] at hb
      subst hb
      obtain ⟨q, hq, hqid⟩ := List.mem_map.mp ha
      exact hany ⟨q, hq, hqid⟩
  · rw [actualizar_map_id]
    exact hnodup
  · exact hnodup.sublist ((eliminar_sublist did productosFile).map Producto.id)
  · simp only [sistema_registrar_venta]
    split
    · rw [registrar_venta_map_id]
      exact hnodup
    · exact hnodup

/-- Witness for C8 on a one-product collection. -/
theorem C8_ids_unicos_testigo :
    ((registrar_producto ⟨"P2", "Mouse", 5, "Tecnologia", 3, Option.none⟩
        [⟨"P1", "Laptop", 10, "Tecnologia", 5, Option.none⟩]).productos.map Producto.id).Nodup ∧
    ((actualizar_producto "P1" (some "Portatil") Option.none Option.none (some 4)
        [⟨"P1", "Laptop", 10, "Tecnologia", 5, Option.none⟩]).productos.map Producto.id).Nodup ∧
    ((eliminar_producto "P1"
        [⟨"P1", "Laptop", 10, "Tecnologia", 5, Option.none⟩]).productos.map Producto.id).Nodup ∧
    ((sistema_registrar_venta "P1" 2 "2024-01-01 10:00:00"
        [⟨"P1", "Laptop", 10, "Tecnologia", 5, Option.none⟩] []).productosFile.map
        Producto.id).Nodup :=
  C8_ids_unicos [⟨"P1", "Laptop", 10, "Tecnologia", 5, Option.none⟩]
    ⟨"P2", "Mouse", 5, "Tecnologia", 3, Option.none⟩ "P1" (some "Portatil") Option.none
    Option.none (some 4) "P1" "P1" 2 "2024-01-01 10:00:00" [] (by decide)

/-- C9: loading with a missing backing file returns the empty collection
without reporting anything; loading a JSON-undecodable file reports the
read error and returns the empty collection; neither case raises. -/
theorem C9_carga_tolerante :
    cargar_productos FileState.missing = ⟨.ok [], false⟩ ∧
    cargar_productos FileState.malformed = ⟨.ok [], true⟩ :=
  ⟨rfl, rfl⟩

/-- C10: when several stored products share the given id, deletion removes
exactly the first one in file order; every later product — the remaining
ones with that id included — stays in the stored collection. -/
theorem C10_elimina_primera (uid : String) (pre post : List Producto) (p : Producto)
    (hpre : ∀ q ∈ pre, q.id ≠ uid) (hp : p.id = uid)
    (_hdup : ∃ q ∈ post, q.id = uid) :
    eliminar_producto uid (pre ++ p :: post) = ⟨pre ++ post, true, .ok⟩ :=
  eliminar_first uid pre post p hpre hp

/-- Witness for C10: two products share id `P1`; deletion removes the
first and keeps the second. -/
theorem C10_elimina_primera_testigo :
    eliminar_producto "P1"
        ([] ++ (⟨"P1", "Laptop", 10, "Tecnologia", 5, Option.none⟩ : Producto) ::
          [⟨"P1", "Mouse", 5, "Tecnologia", 3, Option.none⟩]) =
      ⟨[] ++ [⟨"P1", "Mouse", 5, "Tecnologia", 3, Option.none⟩], true, .ok⟩ :=
  C10_elimina_primera "P1" [] [⟨"P1", "Mouse", 5, "Tecnologia", 3, Option.none⟩]
    ⟨"P1", "Laptop", 10, "Tecnologia", 5, Option.none⟩ (by simp) rfl
    ⟨⟨"P1", "Mouse", 5, "Tecnologia", 3, Option.none⟩, by simp, rfl⟩
